import Mathlib

/-!
# SmartServe escalation/matching engine — shallow embedding

This file embeds the business-contact escalation core of the SmartServe
server in Lean 4 and proves properties of it:

* `src/server/src/models/Business` (unnamed part): the `Business` schema,
  `canHandleTask`, `isCurrentlyOpen`, the `lastContactedAt` default;
* `BusinessContactService` (`processTasksNeedingBusinessContact`,
  `attemptBusinessContactForTask`, `findSuitableBusinesses`,
  `isBusinessCurrentlyOpen`);
* the `POST /contact` and `POST /decline` route handlers in
  `src/server/src/routes/business.ts`;
* the Task-side escalation fields of `src/server/src/models/Task.ts`.

Modelling conventions:

* JS timestamps (`Date.getTime()`, milliseconds since the epoch) are `ℕ`;
  every date produced by the application is a current date, hence
  non-negative.  Counters are `ℤ` (JS numbers used as integers), ratings
  and coordinates are `ℚ`.
* The geodesic distance: the source computes a Haversine distance with
  `Math.sin`/`Math.cos`/`Math.atan2` over IEEE-754 doubles.  Transcendental
  float arithmetic has no executable shallow embedding, so the distance
  computation is a parameter `dist : ℚ → ℚ → ℚ → ℚ → ℚ`
  (arguments `lat1 lng1 lat2 lng2`, result in km), and every theorem holds
  for an arbitrary `dist`.  All uses of distance in the core
  (`canHandleTask`, the ranking comparator) go through this parameter.
* A MongoDB-stored optional `Date` field is the three-valued `DateField`:
  the field can be absent from the document (`missing`), present with BSON
  `null` (`dnull` — what the Mongoose schema default `default: null`
  stores on creation), or present with a date (`dsome t`).  Query
  semantics modelled: `$exists: false` matches exactly `missing`;
  a comparison operator with a `Date` operand (`$lt`, `$lte`, `$gt`) is
  type-bracketed and matches only `dsome` values, never `null` or a
  missing field.
* Mongoose `save()` calls are modelled as pure state updates; the sweep
  loop's possible per-task exceptions are modelled with `Except`
  (`processTasks`), and the registry read inside `findSuitableBusinesses`
  is an `Except String (List Business)` parameter, matching the
  `try`/`catch` structure of the source.
-/

namespace SmartServe

/-- One weekday entry of `businessHours` in the Business schema:
`{ open: string, close: string, isOpen: boolean }` (times are `"HH:MM"`
strings). -/
structure DaySchedule where
  openTime : String
  closeTime : String
  isOpen : Bool
deriving DecidableEq, Repr

/-- The seven per-weekday entries of `businessHours`. -/
structure BusinessHours where
  monday : DaySchedule
  tuesday : DaySchedule
  wednesday : DaySchedule
  thursday : DaySchedule
  friday : DaySchedule
  saturday : DaySchedule
  sunday : DaySchedule
deriving DecidableEq, Repr

/-- A MongoDB-stored optional `Date` field.  `missing` = field absent from
the document; `dnull` = field present with BSON `null` (what the Mongoose
schema default `default: null` stores); `dsome t` = a date, `t` its
`getTime()` value in ms. -/
inductive DateField where
  | missing : DateField
  | dnull : DateField
  | dsome (t : ℕ) : DateField
deriving DecidableEq, Repr

/-- `field?.getTime() || 0`: a missing field reads back as `undefined`, a
null field as `null`; optional chaining turns both into `undefined`, and
`|| 0` turns that (and an exact-epoch `0`) into `0`. -/
def DateField.toMs : DateField → ℕ
  | .missing => 0
  | .dnull => 0
  | .dsome t => t

/-- The Business document (the fields this core reads or writes), from the
Business schema.  `id` stands for `_id`.  `address` is flattened to the
`lat`/`lng` the core uses. -/
structure Business where
  id : String
  name : String
  lat : ℚ
  lng : ℚ
  services : List String
  coverageRadius : ℚ
  isActive : Bool
  businessHours : BusinessHours
  maxVolunteersPerDay : ℤ
  currentVolunteerCount : ℤ
  responseTime : ℚ
  reliability : ℚ
  lastContactedAt : DateField
  totalTasksAssigned : ℤ
  successfulAssignments : ℤ
deriving DecidableEq, Repr

/-- The Task document (escalation-relevant fields), from
`src/server/src/models/Task.ts`.  `id` stands for `_id`; `lat`/`lng` are
`location.lat`/`location.lng`; `acceptedBy` holds user ids.  `endTime` has
no schema default, so `Option` (with `none` = field absent) is exact;
`businessContactedAt` is only ever read back by this core as a value, so
`Option ℕ` suffices (`none` = null/unset). -/
structure Task where
  id : String
  taskCategory : String
  lat : ℚ
  lng : ℚ
  acceptedBy : List String
  businessContactAttempted : Bool
  businessContactedAt : Option ℕ
  assignedBusinessId : Option String
  noVolunteerTimeout : Option ℕ
  endTime : Option ℕ
deriving DecidableEq, Repr

/-- An abstract geodesic-distance function (see the header: the source's
float Haversine is abstracted).  Arguments `lat1 lng1 lat2 lng2`, result
in kilometres. -/
abbrev Dist : Type := ℚ → ℚ → ℚ → ℚ → ℚ

/-- `Business.canHandleTask(taskCategory, taskLat, taskLng)` from the
Business schema methods: active, offers the category, spare capacity
(`currentVolunteerCount >= maxVolunteersPerDay → false`), and the
(Haversine) distance from the business address to the task is within
`coverageRadius`. -/
def canHandleTask (dist : Dist) (b : Business) (taskCategory : String)
    (taskLat taskLng : ℚ) : Bool :=
  b.isActive && b.services.contains taskCategory &&
    decide (b.currentVolunteerCount < b.maxVolunteersPerDay) &&
    decide (dist b.lat b.lng taskLat taskLng ≤ b.coverageRadius)

/-- The instant a sweep or route handler runs at: `ms` is
`Date.now()`/`getTime()`; `weekday` is `Date.getDay()` (0 = Sunday); `hhmm`
is `toTimeString().substring(0, 5)`.  The embedding carries all three
rather than re-deriving calendar data from `ms`. -/
structure Clock where
  ms : ℕ
  weekday : Fin 7
  hhmm : String

/-- JS `Math.abs` on a (rational-valued) number. -/
def jsAbs (x : ℚ) : ℚ := if x < 0 then -x else x

/-- JS `Math.max` on two integers (used as `Math.max(0, count - 1)`). -/
def jsMaxInt (a b : ℤ) : ℤ := if a < b then b else a

/-- Lexicographic strict comparison of JS strings (code-unit by code-unit;
for the ASCII `"HH:MM"` strings compared here, code units coincide with
code points). -/
def charListLtb : List Char → List Char → Bool
  | [], [] => false
  | [], _ :: _ => true
  | _ :: _, [] => false
  | a :: as, b :: bs =>
      if a.val < b.val then true
      else if b.val < a.val then false
      else charListLtb as bs

/-- JS `a <= b` on strings: the negation of the strict reverse
comparison. -/
def jsStrLe (a b : String) : Bool := !(charListLtb b.data a.data)

/-- `dayNames[now.getDay()]` lookup: index 0 is sunday, 6 is saturday. -/
def scheduleFor (h : BusinessHours) : Fin 7 → DaySchedule
  | 0 => h.sunday
  | 1 => h.monday
  | 2 => h.tuesday
  | 3 => h.wednesday
  | 4 => h.thursday
  | 5 => h.friday
  | 6 => h.saturday

/-- `BusinessContactService.isBusinessCurrentlyOpen`: false if the
weekday's entry has `isOpen` false, else `open ≤ now ≤ close` comparing
`"HH:MM"` strings lexicographically (JS `>=`/`<=` on strings). -/
def isBusinessCurrentlyOpen (c : Clock) (b : Business) : Bool :=
  let s := scheduleFor b.businessHours c.weekday
  if !s.isOpen then false
  else jsStrLe s.openTime c.hhmm && jsStrLe c.hhmm s.closeTime

/-- The 2-hour cooldown window: `recentContactThreshold =
new Date(Date.now() - 2 * 60 * 60 * 1000)` in ms (ℕ subtraction truncates
at 0; every realistic clock has `ms ≥ 7200000`). -/
def recentContactThreshold (nowMs : ℕ) : ℕ :=
  nowMs - 2 * 60 * 60 * 1000

/-- The `$or` on `lastContactedAt` in the registry query of
`findSuitableBusinesses`:
`[{lastContactedAt: {$exists: false}}, {lastContactedAt: {$lt: threshold}}]`.
MongoDB semantics (see header): `$exists: false` matches only a missing
field, and `$lt` with a `Date` operand is type-bracketed, matching only
`Date` values — a BSON `null` (the Mongoose schema default) matches
neither branch. -/
def lastContactCooldownOk (threshold : ℕ) : DateField → Bool
  | .missing => true
  | .dnull => false
  | .dsome t => decide (t < threshold)

/-- The registry query of `findSuitableBusinesses`: active, offers the
task's category (Mongo array membership), `$expr` spare capacity, and the
cooldown `$or` above. -/
def businessQueryPred (nowMs : ℕ) (cat : String) (b : Business) : Bool :=
  b.isActive && b.services.contains cat &&
    decide (b.currentVolunteerCount < b.maxVolunteersPerDay) &&
    lastContactCooldownOk (recentContactThreshold nowMs) b.lastContactedAt

/-- The ranking comparator passed to `.sort` in `findSuitableBusinesses`
(negative result ranks `a` before `b`): currently-open first; then
reliability descending, decisive only when `|diff| > 0.5`; then distance
to the task ascending, decisive only when `|diff| > 2` km; finally
`lastContactedAt?.getTime() || 0` ascending. -/
def rankCompare (c : Clock) (dist : Dist) (t : Task) (a b : Business) : ℚ :=
  let aOpen := isBusinessCurrentlyOpen c a
  let bOpen := isBusinessCurrentlyOpen c b
  if aOpen && !bOpen then -1
  else if !aOpen && bOpen then 1
  else
    let reliabilityDiff := b.reliability - a.reliability
    if 1/2 < jsAbs reliabilityDiff then reliabilityDiff
    else
      let aDistance := dist a.lat a.lng t.lat t.lng
      let bDistance := dist b.lat b.lng t.lat t.lng
      let distanceDiff := aDistance - bDistance
      if 2 < jsAbs distanceDiff then distanceDiff
      else (a.lastContactedAt.toMs : ℚ) - (b.lastContactedAt.toMs : ℚ)

/-- Stable insertion of `a` into `l`: `a` goes before the first element it
compares `le` to, hence before every element it ties with that originally
followed it. -/
def insertRanked (le : Business → Business → Bool) (a : Business) :
    List Business → List Business
  | [] => [a]
  | b :: l => if le a b then a :: b :: l else b :: insertRanked le a l

/-- Stable sort by `le`.  `Array.prototype.sort` with a consistent
comparator `cmp` (ES2019: stable) returns the unique stable sort for
`le a b := cmp a b ≤ 0`; stable insertion sort computes the same list and
kernel-reduces, unlike well-founded merge sort. -/
def sortRanked (le : Business → Business → Bool) : List Business → List Business
  | [] => []
  | a :: l => insertRanked le a (sortRanked le l)

/-- `BusinessContactService.findSuitableBusinesses(task)`.  The registry
read (`Business.find(...)`) may throw, hence the `Except` parameter: the
surrounding `try`/`catch` turns any error into an empty result.  On
success the query filters the registry (its Mongo `.sort` only fixes the
pre-order fed to the stable JS sort and is irrelevant to every claim, so
the registry's own order is taken as given), then the `canHandleTask`
filter runs (its inner `try`/`catch` cannot fire for the pure embedded
predicate), then the ranking sort. -/
def findSuitableBusinesses (c : Clock) (dist : Dist) (t : Task)
    (registry : Except String (List Business)) : List Business :=
  match registry with
  | .error _ => []
  | .ok bs =>
      let queried := bs.filter (businessQueryPred c.ms t.taskCategory)
      let suitable := queried.filter fun b =>
        canHandleTask dist b t.taskCategory t.lat t.lng
      sortRanked (fun a b => decide (rankCompare c dist t a b ≤ 0)) suitable

/-- One per-task sweep result `{taskId, businessId, success, message}`. -/
structure ContactResult where
  taskId : String
  businessId : Option String
  success : Bool
  message : String
deriving DecidableEq, Repr

/-- The two state-committing branches of
`attemptBusinessContactForTask`, given the candidate list: on empty, mark
the task attempted (`businessContactAttempted=true`,
`businessContactedAt=now`) and report no match; otherwise take the first
candidate, assign it on the task, and on the business set
`lastContactedAt=now` and bump `currentVolunteerCount` and
`totalTasksAssigned`.  Returns the saved task, the saved business (if
any), and the result.  The subsequent `sendBusinessVolunteerRequest` call
catches all its errors internally and returns a `bool`, so it never
rejects and never disturbs the committed state or the result. -/
def attemptContact (nowMs : ℕ) (t : Task) :
    List Business → Task × Option Business × ContactResult
  | [] =>
      ({ t with businessContactAttempted := true,
                businessContactedAt := some nowMs },
       none,
       ⟨t.id, none, false, "No suitable businesses found in the area"⟩)
  | b :: _ =>
      ({ t with businessContactAttempted := true,
                businessContactedAt := some nowMs,
                assignedBusinessId := some b.id },
       some { b with lastContactedAt := .dsome nowMs,
                     currentVolunteerCount := b.currentVolunteerCount + 1,
                     totalTasksAssigned := b.totalTasksAssigned + 1 },
       ⟨t.id, some b.id, true, "Contacted " ++ b.name ++ " successfully"⟩)

/-- `attemptBusinessContactForTask` = find candidates, then commit the
matching branch. -/
def sweepTask (c : Clock) (dist : Dist) (t : Task)
    (registry : Except String (List Business)) :
    Task × Option Business × ContactResult :=
  attemptContact c.ms t (findSuitableBusinesses c dist t registry)

/-- The task-selection query of `processTasksNeedingBusinessContact`:
`noVolunteerTimeout ≤ now` (a `Date`-operand `$lte`, so a missing/null
timeout never matches), `acceptedBy` empty,
`businessContactAttempted $ne true`, and `endTime` absent or `> now`. -/
def eligibleForContact (nowMs : ℕ) (t : Task) : Bool :=
  (match t.noVolunteerTimeout with
    | some d => decide (d ≤ nowMs)
    | none => false) &&
  t.acceptedBy.isEmpty &&
  !t.businessContactAttempted &&
  (match t.endTime with
    | none => true
    | some e => decide (nowMs < e))

/-- The result the sweep loop's `catch` pushes when processing one task
throws. -/
def errorResult (t : Task) (e : String) : ContactResult :=
  ⟨t.id, none, false, "Error processing task: " ++ e⟩

/-- The `for (const task of tasksNeedingHelp)` loop of
`processTasksNeedingBusinessContact`.  Per-task processing (the awaited
store writes inside `attemptBusinessContactForTask`) may throw, so it is
abstracted as `f : Task → Except String ContactResult`; a thrown error is
caught, recorded via `errorResult`, and the loop continues.  (The
batch-of-5 `setTimeout` pause only delays; it changes no state.) -/
def processTasks (f : Task → Except String ContactResult) :
    List Task → List ContactResult
  | [] => []
  | t :: ts =>
      (match f t with
        | .ok r => r
        | .error e => errorResult t e) :: processTasks f ts

/-- The task-side update of `POST /decline/:businessId/task/:taskId`:
reset `businessContactAttempted`, unset `businessContactedAt`, clear
`assignedBusinessId`. -/
def declineTask (t : Task) : Task :=
  { t with businessContactAttempted := false,
           businessContactedAt := none,
           assignedBusinessId := none }

/-- The business-side update of the decline route:
`currentVolunteerCount = Math.max(0, currentVolunteerCount - 1)`. -/
def declineBusiness (b : Business) : Business :=
  { b with currentVolunteerCount := jsMaxInt 0 (b.currentVolunteerCount - 1) }

/-- The task-side update of `POST /contact/:businessId/task/:taskId`
(manual contact): identical task fields to the sweep's assignment
branch. -/
def contactRouteTask (nowMs : ℕ) (b : Business) (t : Task) : Task :=
  { t with businessContactAttempted := true,
           businessContactedAt := some nowMs,
           assignedBusinessId := some b.id }

/-- The C7 invariant: a task with a business assigned has been marked
contacted. -/
def assignedImpliesContacted (t : Task) : Prop :=
  t.assignedBusinessId ≠ none → t.businessContactAttempted = true

/-- One task-mutating operation of this core: a sweep step over the task,
the manual contact route, or the decline route. -/
inductive CoreStep (c : Clock) (dist : Dist)
    (registry : Except String (List Business)) : Task → Task → Prop
  | sweep (t : Task) :
      CoreStep c dist registry t (sweepTask c dist t registry).1
  | manualContact (b : Business) (t : Task) :
      CoreStep c dist registry t (contactRouteTask c.ms b t)
  | decline (t : Task) : CoreStep c dist registry t (declineTask t)

/-! ### Concrete fixtures

Small closed instances used to evaluate the definitions on concrete
inputs (witnesses and counterexample evaluations).  Numeric fields are
integer-valued rationals except where a spec scenario demands otherwise. -/

/-- A weekday schedule that is open all day. -/
def allOpenDay : DaySchedule := ⟨"00:00", "23:59", true⟩

/-- A weekday schedule with `isOpen` false. -/
def closedDay : DaySchedule := ⟨"00:00", "23:59", false⟩

/-- Business hours open all week. -/
def allOpenHours : BusinessHours :=
  ⟨allOpenDay, allOpenDay, allOpenDay, allOpenDay, allOpenDay, allOpenDay,
   allOpenDay⟩

/-- Business hours closed all week. -/
def closedHours : BusinessHours :=
  ⟨closedDay, closedDay, closedDay, closedDay, closedDay, closedDay,
   closedDay⟩

/-- A sweep instant: a Monday noon, ms value in the 2023 range. -/
def clockW : Clock := ⟨1700000000000, 1, "12:00"⟩

/-- A distance function that is constantly 0 km. -/
def distZeroW : Dist := fun _ _ _ _ => 0

/-- A distance function that returns the first argument (the business's
latitude), letting a fixture encode its distance to the task in `lat`. -/
def distLatW : Dist := fun lat1 _ _ _ => lat1

/-- An active, never-contacted (field absent), open business offering
`"General"` with spare capacity. -/
def businessW : Business :=
  { id := "B1", name := "Helpers Inc", lat := 0, lng := 0,
    services := ["General"], coverageRadius := 5, isActive := true,
    businessHours := allOpenHours, maxVolunteersPerDay := 3,
    currentVolunteerCount := 0, responseTime := 4, reliability := 5,
    lastContactedAt := .missing, totalTasksAssigned := 0,
    successfulAssignments := 0 }

/-- Like `businessW` but closed all week. -/
def closedBusinessW : Business :=
  { businessW with id := "B2", businessHours := closedHours }

/-- An eligible task: timeout passed, no volunteers, not yet attempted,
no end time. -/
def taskW : Task :=
  { id := "T1", taskCategory := "General", lat := 0, lng := 0,
    acceptedBy := [], businessContactAttempted := false,
    businessContactedAt := none, assignedBusinessId := none,
    noVolunteerTimeout := some 1690000000000, endTime := none }

/-- `businessW` with the `lastContactedAt` the Mongoose schema default
actually stores on creation: BSON `null`. -/
def bNullW : Business := { businessW with lastContactedAt := .dnull }

/-- `businessW` contacted 30 minutes before `clockW`. -/
def bRecentW : Business :=
  { businessW with lastContactedAt := .dsome (1700000000000 - 30 * 60 * 1000) }

/-- `businessW` contacted 3 hours before `clockW`. -/
def bOldW : Business :=
  { businessW with
      lastContactedAt := .dsome (1700000000000 - 3 * 60 * 60 * 1000) }

/-- Ranking example 1, first business: reliability 5.0, 10 km from the
task (under `distLatW`). -/
def ex1A : Business := { businessW with id := "A1", lat := 10, reliability := 5 }

/-- Ranking example 1, second business: reliability 4.8, 1 km away. -/
def ex1B : Business :=
  { businessW with id := "A2", lat := 1, reliability := 4.8 }

/-- Ranking example 2: reliability 5.0 at 1 km. -/
def ex2A : Business := { businessW with id := "A3", lat := 1, reliability := 5 }

/-- Ranking example 2: reliability 4.0 at 10 km. -/
def ex2B : Business :=
  { businessW with id := "A4", lat := 10, reliability := 4 }

/-- Ranking: reliability 4.0 at 1 km (paired with `ex1A` to show the
5.0-reliability business wins regardless of distance). -/
def ex3B : Business :=
  { businessW with id := "A6", lat := 1, reliability := 4 }

/-- A per-task processing function that always throws (models a store
write failure during `attemptBusinessContactForTask`). -/
def failW : Task → Except String ContactResult := fun _ => .error "db down"

/-- A task with a business assigned (post-contact state). -/
def taskAssignedW : Task :=
  { taskW with businessContactAttempted := true,
               businessContactedAt := some 1700000000000,
               assignedBusinessId := some "B1" }

/-- `businessW` carrying two active assignments. -/
def businessLoadedW : Business := { businessW with currentVolunteerCount := 2 }

/-! ### Helper lemmas -/

/-- Membership is preserved by stable insertion. -/
theorem mem_insertRanked (le : Business → Business → Bool) (a x : Business) :
    ∀ l : List Business, x ∈ insertRanked le a l ↔ x = a ∨ x ∈ l := by
  intro l
  induction l with
  | nil => simp [insertRanked]
  | cons b l ih =>
      by_cases h : le a b = true
      · simp [insertRanked, h]
      · simp only [insertRanked, if_neg h, List.mem_cons, ih]
        tauto

/-- The stable sort is a reordering: membership is unchanged. -/
theorem mem_sortRanked (le : Business → Business → Bool) (x : Business) :
    ∀ l : List Business, x ∈ sortRanked le l ↔ x ∈ l := by
  intro l
  induction l with
  | nil => simp [sortRanked]
  | cons a l ih =>
      simp [sortRanked, mem_insertRanked, ih]

/-- C4: `canHandleTask` is the conjunction of active, category offered,
spare capacity, and distance within radius; in particular it is false
whenever the category is not offered. -/
theorem canHandleTask_iff (dist : Dist) (b : Business) (cat : String)
    (lat lng : ℚ) :
    (canHandleTask dist b cat lat lng = true ↔
      b.isActive = true ∧ cat ∈ b.services ∧
        b.currentVolunteerCount < b.maxVolunteersPerDay ∧
        dist b.lat b.lng lat lng ≤ b.coverageRadius) ∧
    (cat ∉ b.services → canHandleTask dist b cat lat lng = false) := by
  constructor
  · simp [canHandleTask, and_assoc]
  · intro hnot
    simp [canHandleTask]
    intro _ hmem
    exact absurd hmem hnot

/-- Witness for `canHandleTask_iff`: a business offering only `"General"`
cannot handle a `"Rental"` task even at distance 0 with spare capacity. -/
theorem canHandleTask_iff_witness :
    "Rental" ∉ businessW.services ∧
    canHandleTask distZeroW businessW "Rental" 0 0 = false :=
  ⟨by decide, (canHandleTask_iff distZeroW businessW "Rental" 0 0).2 (by decide)⟩

/-- C1: for a task selected by the sweep query whose candidate list is
non-empty, the sweep marks the task contacted at the sweep instant and
assigns the first candidate; on that business it stamps
`lastContactedAt`, increments `currentVolunteerCount` and
`totalTasksAssigned` by exactly one, and records a success result naming
that business. -/
theorem sweep_assigns_top_candidate (c : Clock) (dist : Dist) (t : Task)
    (registry : Except String (List Business)) (b : Business)
    (rest : List Business)
    (_hsel : eligibleForContact c.ms t = true)
    (hcands : findSuitableBusinesses c dist t registry = b :: rest) :
    (sweepTask c dist t registry).1.businessContactAttempted = true ∧
    (sweepTask c dist t registry).1.businessContactedAt = some c.ms ∧
    (sweepTask c dist t registry).1.assignedBusinessId = some b.id ∧
    (∃ b' : Business, (sweepTask c dist t registry).2.1 = some b' ∧
      b'.id = b.id ∧
      b'.lastContactedAt = .dsome c.ms ∧
      b'.currentVolunteerCount = b.currentVolunteerCount + 1 ∧
      b'.totalTasksAssigned = b.totalTasksAssigned + 1) ∧
    (sweepTask c dist t registry).2.2.taskId = t.id ∧
    (sweepTask c dist t registry).2.2.businessId = some b.id ∧
    (sweepTask c dist t registry).2.2.success = true := by
  simp [sweepTask, hcands, attemptContact]

/-- Witness for `sweep_assigns_top_candidate` at `taskW` against a
one-business registry. -/
theorem sweep_assigns_top_candidate_witness :
    (eligibleForContact clockW.ms taskW = true ∧
      findSuitableBusinesses clockW distZeroW taskW (.ok [businessW]) =
        businessW :: []) ∧
    ((sweepTask clockW distZeroW taskW (.ok [businessW])).1.businessContactAttempted = true ∧
     (sweepTask clockW distZeroW taskW (.ok [businessW])).1.businessContactedAt = some clockW.ms ∧
     (sweepTask clockW distZeroW taskW (.ok [businessW])).1.assignedBusinessId = some businessW.id ∧
     (∃ b' : Business,
        (sweepTask clockW distZeroW taskW (.ok [businessW])).2.1 = some b' ∧
        b'.id = businessW.id ∧
        b'.lastContactedAt = .dsome clockW.ms ∧
        b'.currentVolunteerCount = businessW.currentVolunteerCount + 1 ∧
        b'.totalTasksAssigned = businessW.totalTasksAssigned + 1) ∧
     (sweepTask clockW distZeroW taskW (.ok [businessW])).2.2.taskId = taskW.id ∧
     (sweepTask clockW distZeroW taskW (.ok [businessW])).2.2.businessId = some businessW.id ∧
     (sweepTask clockW distZeroW taskW (.ok [businessW])).2.2.success = true) :=
  ⟨⟨by decide, by decide⟩,
   sweep_assigns_top_candidate clockW distZeroW taskW (.ok [businessW])
     businessW [] (by decide) (by decide)⟩

/-- C5: for a selected task (which, by the invariant, has no assigned
business) whose candidate list is empty, the sweep marks it contacted at
the sweep instant, leaves `assignedBusinessId` null, records the
no-match result, and no later sweep selects the task again. -/
theorem sweep_no_match_terminal (c : Clock) (dist : Dist) (t : Task)
    (registry : Except String (List Business))
    (hsel : eligibleForContact c.ms t = true)
    (hinv : assignedImpliesContacted t)
    (hempty : findSuitableBusinesses c dist t registry = []) :
    (sweepTask c dist t registry).1.businessContactAttempted = true ∧
    (sweepTask c dist t registry).1.businessContactedAt = some c.ms ∧
    (sweepTask c dist t registry).1.assignedBusinessId = none ∧
    (sweepTask c dist t registry).2.2 =
      ⟨t.id, none, false, "No suitable businesses found in the area"⟩ ∧
    ∀ later : ℕ, eligibleForContact later (sweepTask c dist t registry).1 = false := by
  have hnotatt : t.businessContactAttempted = false := by
    rcases Bool.and_eq_true .. ▸ hsel with ⟨h1, -⟩
    rcases Bool.and_eq_true .. ▸ h1 with ⟨-, h2⟩
    simpa using h2
  have hassigned : t.assignedBusinessId = none := by
    by_contra hne
    have := hinv hne
    rw [hnotatt] at this
    exact Bool.false_ne_true this
  refine ⟨?_, ?_, ?_, ?_, ?_⟩ <;>
    simp [sweepTask, hempty, attemptContact, eligibleForContact, hassigned]

/-- Witness for `sweep_no_match_terminal`: `taskW` against an empty
registry. -/
theorem sweep_no_match_terminal_witness :
    (eligibleForContact clockW.ms taskW = true ∧
      assignedImpliesContacted taskW ∧
      findSuitableBusinesses clockW distZeroW taskW (.ok []) = []) ∧
    ((sweepTask clockW distZeroW taskW (.ok [])).1.businessContactAttempted = true ∧
     (sweepTask clockW distZeroW taskW (.ok [])).1.businessContactedAt = some clockW.ms ∧
     (sweepTask clockW distZeroW taskW (.ok [])).1.assignedBusinessId = none ∧
     (sweepTask clockW distZeroW taskW (.ok [])).2.2 =
       ⟨taskW.id, none, false, "No suitable businesses found in the area"⟩ ∧
     ∀ later : ℕ,
       eligibleForContact later (sweepTask clockW distZeroW taskW (.ok [])).1 = false) :=
  ⟨⟨by decide, fun h => absurd rfl h, by decide⟩,
   sweep_no_match_terminal clockW distZeroW taskW (.ok [])
     (by decide) (fun h => absurd rfl h) (by decide)⟩

/-- C10: a registry read error inside `findSuitableBusinesses` is caught
and returned as the empty candidate list, so the sweep step is literally
the same as a genuine no-match: the task is marked contacted (and never
selected again) and the result carries the no-match message, not a
distinguishable store error. -/
theorem registry_error_treated_as_no_match (c : Clock) (dist : Dist)
    (t : Task) (e : String) :
    findSuitableBusinesses c dist t (.error e) = [] ∧
    sweepTask c dist t (.error e) = sweepTask c dist t (.ok []) ∧
    (sweepTask c dist t (.error e)).1.businessContactAttempted = true ∧
    (sweepTask c dist t (.error e)).2.2 =
      ⟨t.id, none, false, "No suitable businesses found in the area"⟩ ∧
    ∀ later : ℕ,
      eligibleForContact later (sweepTask c dist t (.error e)).1 = false := by
  refine ⟨rfl, rfl, ?_, ?_, ?_⟩ <;>
    simp [sweepTask, findSuitableBusinesses, attemptContact, eligibleForContact]

/-- C3 (code bug): the cooldown `$or` of the registry query never matches
the BSON `null` that the Business schema's `default: null` stores for a
never-contacted business — `$exists: false` requires the field to be
absent and a `Date`-operand `$lt` is type-bracketed — so `bNullW`,
otherwise fully eligible, is excluded from the candidates, against the
spec's "null OR older than 2 hours".  The correct parts of the claim also
evaluate as stated: a business contacted 30 minutes ago is excluded, and
one with the field absent or contacted 3 hours ago is included. -/
theorem cooldown_excludes_schema_default_null :
    businessQueryPred clockW.ms "General" bNullW = false ∧
    findSuitableBusinesses clockW distZeroW taskW (.ok [bNullW]) = [] ∧
    businessQueryPred clockW.ms "General" bRecentW = false ∧
    businessQueryPred clockW.ms "General" businessW = true ∧
    businessQueryPred clockW.ms "General" bOldW = true ∧
    canHandleTask distZeroW bNullW "General" 0 0 = true ∧
    isBusinessCurrentlyOpen clockW bNullW = true := by
  decide

/-- C2: the ranking comparator.  A currently-open business beats a closed
one; with open-status tied, strictly higher reliability wins only when the
absolute difference exceeds 0.5; then strictly smaller distance wins only
when the absolute difference exceeds 2 km; then the earlier
`lastContactedAt` (missing/null read as 0, the earliest value) wins.  The
spec's two scenarios evaluate as stated: with reliabilities 5.0/4.8 the
1 km business outranks the 10 km one, and with 5.0/4.0 the 5.0 business
outranks regardless of the distances. -/
theorem rank_comparator_spec (c : Clock) (dist : Dist) (t : Task)
    (a b : Business) :
    (isBusinessCurrentlyOpen c a = true → isBusinessCurrentlyOpen c b = false →
      rankCompare c dist t a b < 0) ∧
    (isBusinessCurrentlyOpen c a = isBusinessCurrentlyOpen c b →
      1/2 < jsAbs (b.reliability - a.reliability) →
      b.reliability < a.reliability →
      rankCompare c dist t a b < 0) ∧
    (isBusinessCurrentlyOpen c a = isBusinessCurrentlyOpen c b →
      jsAbs (b.reliability - a.reliability) ≤ 1/2 →
      2 < jsAbs (dist a.lat a.lng t.lat t.lng - dist b.lat b.lng t.lat t.lng) →
      dist a.lat a.lng t.lat t.lng < dist b.lat b.lng t.lat t.lng →
      rankCompare c dist t a b < 0) ∧
    (isBusinessCurrentlyOpen c a = isBusinessCurrentlyOpen c b →
      jsAbs (b.reliability - a.reliability) ≤ 1/2 →
      jsAbs (dist a.lat a.lng t.lat t.lng - dist b.lat b.lng t.lat t.lng) ≤ 2 →
      a.lastContactedAt.toMs < b.lastContactedAt.toMs →
      rankCompare c dist t a b < 0) ∧
    0 < rankCompare clockW distLatW taskW ex1A ex1B ∧
    rankCompare clockW distLatW taskW ex1B ex1A < 0 ∧
    rankCompare clockW distLatW taskW ex2A ex2B < 0 ∧
    rankCompare clockW distLatW taskW ex1A ex3B < 0 := by
  have hx1A : isBusinessCurrentlyOpen clockW ex1A = true := by decide
  have hx1B : isBusinessCurrentlyOpen clockW ex1B = true := by decide
  have hx2A : isBusinessCurrentlyOpen clockW ex2A = true := by decide
  have hx2B : isBusinessCurrentlyOpen clockW ex2B = true := by decide
  have hx3B : isBusinessCurrentlyOpen clockW ex3B = true := by decide
  refine ⟨?_, ?_, ?_, ?_, ?_, ?_, ?_, ?_⟩
  · intro h1 h2
    simp [rankCompare, h1, h2]
  · intro hopen hth hlt
    simp only [rankCompare]
    rw [hopen, Bool.and_not_self, Bool.not_and_self,
      if_neg Bool.false_ne_true, if_neg Bool.false_ne_true, if_pos hth]
    exact sub_neg.mpr hlt
  · intro hopen hth hdth hdlt
    simp only [rankCompare]
    rw [hopen, Bool.and_not_self, Bool.not_and_self,
      if_neg Bool.false_ne_true, if_neg Bool.false_ne_true,
      if_neg (not_lt.mpr hth), if_pos hdth]
    exact sub_neg.mpr hdlt
  · intro hopen hth hdth hlast
    simp only [rankCompare]
    rw [hopen, Bool.and_not_self, Bool.not_and_self,
      if_neg Bool.false_ne_true, if_neg Bool.false_ne_true,
      if_neg (not_lt.mpr hth), if_neg (not_lt.mpr hdth)]
    exact sub_neg.mpr (Nat.cast_lt.mpr hlast)
  · simp only [rankCompare, hx1A, hx1B, Bool.not_true, Bool.and_false,
      Bool.false_and]
    rw [if_neg Bool.false_ne_true, if_neg Bool.false_ne_true]
    norm_num [ex1A, ex1B, businessW, distLatW, taskW, jsAbs]
  · simp only [rankCompare, hx1A, hx1B, Bool.not_true, Bool.and_false,
      Bool.false_and]
    rw [if_neg Bool.false_ne_true, if_neg Bool.false_ne_true]
    norm_num [ex1A, ex1B, businessW, distLatW, taskW, jsAbs]
  · simp only [rankCompare, hx2A, hx2B, Bool.not_true, Bool.and_false,
      Bool.false_and]
    rw [if_neg Bool.false_ne_true, if_neg Bool.false_ne_true]
    norm_num [ex2A, ex2B, businessW, distLatW, taskW, jsAbs]
  · simp only [rankCompare, hx1A, hx3B, Bool.not_true, Bool.and_false,
      Bool.false_and]
    rw [if_neg Bool.false_ne_true, if_neg Bool.false_ne_true]
    norm_num [ex1A, ex3B, businessW, distLatW, taskW, jsAbs]

/-- Witness for `rank_comparator_spec`: an open business ranks ahead of a
closed one. -/
theorem rank_comparator_spec_witness :
    (isBusinessCurrentlyOpen clockW businessW = true ∧
      isBusinessCurrentlyOpen clockW closedBusinessW = false) ∧
    rankCompare clockW distZeroW taskW businessW closedBusinessW < 0 :=
  ⟨⟨by decide, by decide⟩,
   (rank_comparator_spec clockW distZeroW taskW businessW closedBusinessW).1
     (by decide) (by decide)⟩

/-- C6: declining an assigned task resets the task's contact fields and
sets the business's count to `max(0, count - 1)`: minus one when
positive, unchanged at zero. -/
theorem decline_resets_and_decrements (t : Task) (b : Business)
    (_hassigned : t.assignedBusinessId = some b.id) :
    (declineTask t).businessContactAttempted = false ∧
    (declineTask t).businessContactedAt = none ∧
    (declineTask t).assignedBusinessId = none ∧
    (declineBusiness b).currentVolunteerCount =
      jsMaxInt 0 (b.currentVolunteerCount - 1) ∧
    (0 < b.currentVolunteerCount →
      (declineBusiness b).currentVolunteerCount = b.currentVolunteerCount - 1) ∧
    (b.currentVolunteerCount = 0 →
      (declineBusiness b).currentVolunteerCount = 0) := by
  refine ⟨rfl, rfl, rfl, rfl, ?_, ?_⟩
  · intro h
    simp only [declineBusiness, jsMaxInt]
    split <;> omega
  · intro h
    simp [declineBusiness, jsMaxInt, h]

/-- Witness for `decline_resets_and_decrements`: declining `taskAssignedW`
held by `businessLoadedW` (count 2). -/
theorem decline_resets_and_decrements_witness :
    taskAssignedW.assignedBusinessId = some businessLoadedW.id ∧
    ((declineTask taskAssignedW).businessContactAttempted = false ∧
     (declineTask taskAssignedW).businessContactedAt = none ∧
     (declineTask taskAssignedW).assignedBusinessId = none ∧
     (declineBusiness businessLoadedW).currentVolunteerCount =
       jsMaxInt 0 (businessLoadedW.currentVolunteerCount - 1) ∧
     (0 < businessLoadedW.currentVolunteerCount →
       (declineBusiness businessLoadedW).currentVolunteerCount =
         businessLoadedW.currentVolunteerCount - 1) ∧
     (businessLoadedW.currentVolunteerCount = 0 →
       (declineBusiness businessLoadedW).currentVolunteerCount = 0)) :=
  ⟨by decide,
   decline_resets_and_decrements taskAssignedW businessLoadedW (by decide)⟩

/-- C7: each core operation preserves the invariant "assigned implies
contacted": both sweep branches set `businessContactAttempted = true`,
the manual contact route sets it together with the assignment, and
decline clears the assignment and the flag together. -/
theorem assigned_implies_contacted_preserved (c : Clock) (dist : Dist)
    (registry : Except String (List Business)) (t t' : Task)
    (_hinv : assignedImpliesContacted t)
    (hstep : CoreStep c dist registry t t') :
    assignedImpliesContacted t' := by
  cases hstep with
  | sweep t =>
      unfold sweepTask
      cases findSuitableBusinesses c dist t registry with
      | nil => intro _; rfl
      | cons b rest => intro _; rfl
  | manualContact b t => intro _; rfl
  | decline t => intro h; exact absurd rfl h

/-- Witness for `assigned_implies_contacted_preserved`: one sweep step
from `taskW`. -/
theorem assigned_implies_contacted_preserved_witness :
    assignedImpliesContacted taskW ∧
    assignedImpliesContacted (sweepTask clockW distZeroW taskW (.ok [businessW])).1 :=
  ⟨fun h => absurd rfl h,
   assigned_implies_contacted_preserved clockW distZeroW (.ok [businessW])
     taskW _ (fun h => absurd rfl h) (CoreStep.sweep taskW)⟩

/-- C8: every candidate `findSuitableBusinesses` returns (hence any
selected business) has strictly spare capacity, having passed both the
registry query and the `canHandleTask` filter, each of which checks
`currentVolunteerCount < maxVolunteersPerDay`. -/
theorem sweep_never_selects_full_business (c : Clock) (dist : Dist)
    (t : Task) (registry : Except String (List Business)) (b : Business)
    (hmem : b ∈ findSuitableBusinesses c dist t registry) :
    b.currentVolunteerCount < b.maxVolunteersPerDay ∧
    businessQueryPred c.ms t.taskCategory b = true ∧
    canHandleTask dist b t.taskCategory t.lat t.lng = true := by
  cases registry with
  | error e => simp [findSuitableBusinesses] at hmem
  | ok bs =>
      simp only [findSuitableBusinesses] at hmem
      rw [mem_sortRanked] at hmem
      have h2 := List.mem_filter.mp hmem
      have h1 := List.mem_filter.mp h2.1
      refine ⟨?_, h1.2, h2.2⟩
      have hq := h1.2
      simp only [businessQueryPred, Bool.and_eq_true, decide_eq_true_eq] at hq
      exact hq.1.2

/-- Witness for `sweep_never_selects_full_business`: `businessW` is a
candidate for `taskW` and has spare capacity. -/
theorem sweep_never_selects_full_business_witness :
    businessW ∈ findSuitableBusinesses clockW distZeroW taskW (.ok [businessW]) ∧
    (businessW.currentVolunteerCount < businessW.maxVolunteersPerDay ∧
     businessQueryPred clockW.ms taskW.taskCategory businessW = true ∧
     canHandleTask distZeroW businessW taskW.taskCategory taskW.lat taskW.lng = true) :=
  ⟨by decide,
   sweep_never_selects_full_business clockW distZeroW taskW (.ok [businessW])
     businessW (by decide)⟩

/-- C9: the sweep loop records exactly one result per selected task; when
processing one task throws, the error is caught and recorded as a
failure result whose message carries the error text, and the remaining
tasks are still processed. -/
theorem sweep_isolates_failures (f : Task → Except String ContactResult)
    (ts1 ts2 : List Task) (t : Task) (e : String)
    (hf : f t = .error e) :
    (∀ ts : List Task, (processTasks f ts).length = ts.length) ∧
    processTasks f (ts1 ++ t :: ts2) =
      processTasks f ts1 ++ errorResult t e :: processTasks f ts2 ∧
    (errorResult t e).success = false ∧
    (errorResult t e).message = "Error processing task: " ++ e := by
  refine ⟨?_, ?_, rfl, rfl⟩
  · intro ts
    induction ts with
    | nil => rfl
    | cons a l ih => simp [processTasks, ih]
  · induction ts1 with
    | nil => simp [processTasks, hf]
    | cons a l ih => simp [processTasks, ih]

/-- Witness for `sweep_isolates_failures`: an always-throwing processor
over a three-task batch. -/
theorem sweep_isolates_failures_witness :
    failW taskW = .error "db down" ∧
    ((∀ ts : List Task, (processTasks failW ts).length = ts.length) ∧
     processTasks failW ([taskAssignedW] ++ taskW :: [taskAssignedW]) =
       processTasks failW [taskAssignedW] ++
         errorResult taskW "db down" :: processTasks failW [taskAssignedW] ∧
     (errorResult taskW "db down").success = false ∧
     (errorResult taskW "db down").message =
       "Error processing task: " ++ "db down") :=
  ⟨rfl,
   sweep_isolates_failures failW [taskAssignedW] [taskAssignedW] taskW
     "db down" rfl⟩

end SmartServe
